import Mathlib

/-!
Shallow embedding of the Yeogiya front-end: the axios-based API client
(`src/unnamed/part_000`, an axios instance with request/response
interceptors and the `apiClient` operation record) and the router
(`src/src/components/routers/Router.tsx`).

Browser local storage is modelled as an association list from string keys
to string values; the JS `null` returned by `getItem` for a missing key is
modelled as `Option.none`.  Network outcomes are passed to each operation
as an `Except` value standing for the settled promise of the underlying
axios call.
-/

/-- Client-side local storage: a string-keyed map of string values. -/
abbrev Storage := List (String × String)

/-- `localStorage.getItem(key)`: the stored value, or `none` for JS `null`. -/
def getItem (s : Storage) (key : String) : Option String :=
  s.lookup key

/-- `localStorage.removeItem(key)`: deletes the entry for `key` (keys are unique). -/
def removeItem (s : Storage) (key : String) : Storage :=
  s.filter (fun p => p.1 != key)

/-- The fixed configuration passed to `axios.create` in the source. -/
structure AxiosInstanceConfig where
  baseURL : String
  timeout : Nat
  headers : List (String × String)
deriving DecidableEq

/-- `axios.create({ baseURL: BASE_URL, timeout: 10000,
    headers: { 'Content-Type': 'application/json' } })` with `BASE_URL = '/api'`. -/
def api : AxiosInstanceConfig :=
  { baseURL := "/api"
    timeout := 10000
    headers := [("Content-Type", "application/json")] }

/-- The mutable per-request config seen by the request interceptor
(only its `headers` field is touched by the source). -/
structure RequestConfig where
  headers : List (String × String)
deriving DecidableEq

/-- The request config a fresh request starts from: the instance defaults. -/
def initialRequestConfig (cfg : AxiosInstanceConfig) : RequestConfig :=
  { headers := cfg.headers }

/-- JS object property assignment `headers[k] = v`: overwrite the entry for
`k` if present, otherwise append it. -/
def setHeader : List (String × String) → String → String → List (String × String)
  | [], k, v => [(k, v)]
  | (k', v') :: rest, k, v =>
      if k' == k then (k, v) :: rest else (k', v') :: setHeader rest k v

/-- The request interceptor:
`const token = localStorage.getItem('token'); if (token) { config.headers.Authorization = `Bearer ${token}`; } return config;`.
JS truthiness: `null` and the empty string are falsy, so the header is set
only for a present, non-empty token. -/
def requestInterceptor (storage : Storage) (config : RequestConfig) : RequestConfig :=
  match getItem storage "token" with
  | some token =>
      if token != "" then
        { config with headers := setHeader config.headers "Authorization" ("Bearer " ++ token) }
      else config
  | none => config

/-- The `response` object carried by an axios error, as far as the source
inspects it (`error.response?.status`). -/
structure ErrorResponse where
  status : Nat
deriving DecidableEq

/-- An axios error: may or may not carry an HTTP response (`error.response`
is absent for network/timeout failures); `message` keeps errors with equal
statuses distinguishable. -/
structure AxiosError where
  message : String
  response : Option ErrorResponse
deriving DecidableEq

/-- A settled axios response: HTTP status and parsed body (`response.data`). -/
structure AxiosResponse (γ : Type) where
  status : Nat
  data : γ
deriving DecidableEq

/-- A storage side effect performed by an interceptor, recorded in order. -/
inductive StorageOp where
  | removeItemOp (key : String)
deriving DecidableEq

/-- The response interceptor's success handler: `(response) => response`. -/
def responseSuccessInterceptor {γ : Type} (r : AxiosResponse γ) : AxiosResponse γ :=
  r

/-- The response interceptor's error handler:
`if (error.response?.status === 401) { localStorage.removeItem('token'); } return Promise.reject(error);`.
Returns the updated storage, the ordered trace of storage operations
performed, and the settled result (always a rejection with the same error). -/
def responseErrorInterceptor (γ : Type) (storage : Storage) (e : AxiosError) :
    (Storage × List StorageOp) × Except AxiosError (AxiosResponse γ) :=
  if e.response.map ErrorResponse.status = some 401 then
    ((removeItem storage "token", [StorageOp.removeItemOp "token"]), Except.error e)
  else
    ((storage, []), Except.error e)

/-- HTTP method of a request issued by an `apiClient` operation. -/
inductive Method where
  | GET
  | POST
  | PUT
  | DELETE
deriving DecidableEq

/-- The single HTTP call an `apiClient` operation hands to the axios
instance: method, relative url, optional query params, optional JSON body. -/
structure ApiCall (π β : Type) where
  method : Method
  url : String
  params : Option π
  body : Option β
deriving DecidableEq

/-- One run of an `apiClient` operation: the single call it issues, the
console-error messages it logs, and the value it returns or the error it
rethrows. -/
structure OpRun (π β γ : Type) where
  call : ApiCall π β
  logs : List String
  result : Except AxiosError γ

namespace apiClient

/-- `get: async <T>(url, params?) => { try { const response = await api.get(url, {params}); return response.data as T; } catch (error) { console.error('GET 요청 실패:', error); throw error; } }`. -/
def get {π γ : Type} (url : String) (params : Option π)
    (net : Except AxiosError (AxiosResponse γ)) : OpRun π Unit γ :=
  let call : ApiCall π Unit := { method := Method.GET, url := url, params := params, body := none }
  match net with
  | Except.ok r => { call := call, logs := [], result := Except.ok r.data }
  | Except.error e => { call := call, logs := ["GET 요청 실패:"], result := Except.error e }

/-- `post: async <T>(url, data?) => ...` — POSTs `data` as the body,
returns `response.data`, logs `'POST 요청 실패:'` and rethrows on failure. -/
def post {β γ : Type} (url : String) (data : Option β)
    (net : Except AxiosError (AxiosResponse γ)) : OpRun Unit β γ :=
  let call : ApiCall Unit β := { method := Method.POST, url := url, params := none, body := data }
  match net with
  | Except.ok r => { call := call, logs := [], result := Except.ok r.data }
  | Except.error e => { call := call, logs := ["POST 요청 실패:"], result := Except.error e }

/-- `put: async <T>(url, data?) => ...` — like `post` with method PUT and
log message `'PUT 요청 실패:'`. -/
def put {β γ : Type} (url : String) (data : Option β)
    (net : Except AxiosError (AxiosResponse γ)) : OpRun Unit β γ :=
  let call : ApiCall Unit β := { method := Method.PUT, url := url, params := none, body := data }
  match net with
  | Except.ok r => { call := call, logs := [], result := Except.ok r.data }
  | Except.error e => { call := call, logs := ["PUT 요청 실패:"], result := Except.error e }

/-- `delete: async (url) => ...` — DELETE with no params or body, returns
`response.data`, logs `'DELETE 요청 실패:'` and rethrows on failure. -/
def delete {γ : Type} (url : String)
    (net : Except AxiosError (AxiosResponse γ)) : OpRun Unit Unit γ :=
  let call : ApiCall Unit Unit := { method := Method.DELETE, url := url, params := none, body := none }
  match net with
  | Except.ok r => { call := call, logs := [], result := Except.ok r.data }
  | Except.error e => { call := call, logs := ["DELETE 요청 실패:"], result := Except.error e }

/-- `searchAddress: async (query) => ...` — GET `/naver-maps/search` with
`params: { query }`; `γ` stands for the external opaque
`BackendAddressSearchResponse` type. -/
def searchAddress {γ : Type} (query : String)
    (net : Except AxiosError (AxiosResponse γ)) : OpRun (List (String × String)) Unit γ :=
  let call : ApiCall (List (String × String)) Unit :=
    { method := Method.GET, url := "/naver-maps/search"
      params := some [("query", query)], body := none }
  match net with
  | Except.ok r => { call := call, logs := [], result := Except.ok r.data }
  | Except.error e => { call := call, logs := ["주소 검색 실패:"], result := Except.error e }

/-- `findNearbyStations: async (lat, lng) => ...` — GET
`/naver-maps/nearby-stations` with `params: { lat, lng }`; `Num` stands
for the JS number type (passed through untouched). -/
def findNearbyStations {Num γ : Type} (lat lng : Num)
    (net : Except AxiosError (AxiosResponse γ)) : OpRun (List (String × Num)) Unit γ :=
  let call : ApiCall (List (String × Num)) Unit :=
    { method := Method.GET, url := "/naver-maps/nearby-stations"
      params := some [("lat", lat), ("lng", lng)], body := none }
  match net with
  | Except.ok r => { call := call, logs := [], result := Except.ok r.data }
  | Except.error e => { call := call, logs := ["지하철역 검색 실패:"], result := Except.error e }

end apiClient

/-- A `{lat, lng}` pair as sent to the center-point endpoint. -/
structure LatLng (Num : Type) where
  lat : Num
  lng : Num
deriving DecidableEq

/-- The `{lat, lng, count}` object returned by the center-point endpoint. -/
structure CenterPointResult (Num : Type) where
  lat : Num
  lng : Num
  count : Num
deriving DecidableEq

namespace apiClient

/-- `calculateCenterPoint: async (locations) => { ... await api.post('/naver-maps/center-point', locations) ... }` —
POSTs the locations array as the body, returns the server's
`{lat, lng, count}` object, logs `'중심점 계산 실패:'` and rethrows on failure. -/
def calculateCenterPoint {Num : Type} (locations : List (LatLng Num))
    (net : Except AxiosError (AxiosResponse (CenterPointResult Num))) :
    OpRun Unit (List (LatLng Num)) (CenterPointResult Num) :=
  let call : ApiCall Unit (List (LatLng Num)) :=
    { method := Method.POST, url := "/naver-maps/center-point"
      params := none, body := some locations }
  match net with
  | Except.ok r => { call := call, logs := [], result := Except.ok r.data }
  | Except.error e => { call := call, logs := ["중심점 계산 실패:"], result := Except.error e }

/-- `reverseGeocode: async (lat, lng) => ...` — GET
`/naver-maps/reverse-geocode` with `params: { lat, lng }`. -/
def reverseGeocode {Num γ : Type} (lat lng : Num)
    (net : Except AxiosError (AxiosResponse γ)) : OpRun (List (String × Num)) Unit γ :=
  let call : ApiCall (List (String × Num)) Unit :=
    { method := Method.GET, url := "/naver-maps/reverse-geocode"
      params := some [("lat", lat), ("lng", lng)], body := none }
  match net with
  | Except.ok r => { call := call, logs := [], result := Except.ok r.data }
  | Except.error e => { call := call, logs := ["리버스 지오코딩 실패:"], result := Except.error e }

end apiClient

/-- One hexadecimal digit (uppercase), for percent-encoding. -/
def hexDigitChar (n : Nat) : Char :=
  if n < 10 then Char.ofNat (48 + n) else Char.ofNat (55 + n)

/-- `%XX` percent-escape of one byte. -/
def percentByte (b : Nat) : String :=
  String.mk ['%', hexDigitChar (b / 16), hexDigitChar (b % 16)]

/-- UTF-8 bytes of a Unicode code point. -/
def utf8Bytes (n : Nat) : List Nat :=
  if n < 0x80 then [n]
  else if n < 0x800 then [0xC0 + n / 64, 0x80 + n % 64]
  else if n < 0x10000 then [0xE0 + n / 4096, 0x80 + (n / 64) % 64, 0x80 + n % 64]
  else [0xF0 + n / 262144, 0x80 + (n / 4096) % 64, 0x80 + (n / 64) % 64, 0x80 + n % 64]

/-- Code points left unescaped by `encodeURIComponent`:
`A-Z a-z 0-9 - _ . ! ~ * ' ( )`. -/
def isUnreservedCode (n : Nat) : Bool :=
  (65 ≤ n && n ≤ 90) || (97 ≤ n && n ≤ 122) || (48 ≤ n && n ≤ 57) ||
  n == 45 || n == 95 || n == 46 || n == 33 || n == 126 || n == 42 ||
  n == 39 || n == 40 || n == 41

/-- Modelled from the spec: JS `encodeURIComponent`, the per-value query
encoding the spec's example URLs use (space becomes `%20`); the actual
serializer lives in the axios library, outside this repository's sources. -/
def encodeURIComponent (s : String) : String :=
  String.join (s.data.map fun c =>
    if isUnreservedCode c.toNat then String.singleton c
    else String.join ((utf8Bytes c.toNat).map percentByte))

/-- Modelled from the spec: query-string serialization of a params object,
`?k1=v1&k2=v2` with percent-encoded keys and values, empty for no params;
the actual serializer lives in the axios library, outside this
repository's sources. -/
def serializeParams : List (String × String) → String
  | [] => ""
  | ps => "?" ++ String.intercalate "&"
      (ps.map fun p => encodeURIComponent p.1 ++ "=" ++ encodeURIComponent p.2)

/-- Modelled from the spec: the effective request URL — the instance base
path, then the relative url, then the serialized query string. -/
def buildUrl (cfg : AxiosInstanceConfig) (url : String)
    (params : List (String × String)) : String :=
  cfg.baseURL ++ url ++ serializeParams params

/-- What a route renders; the home page component is opaque to this layer. -/
inductive View where
  | home
deriving DecidableEq

/-- One `<Route path=... element=.../>` entry. -/
structure RouteDef where
  path : String
  element : View
deriving DecidableEq

/-- The route table of `Router.tsx`: `<Routes><Route path="/" element={<Home/>}/></Routes>`. -/
def Router : List RouteDef :=
  [{ path := "/", element := View.home }]

/-- Modelled from the spec: react-router-dom route matching for static,
parameterless paths — the route whose path equals the location renders its
element, and with no matching route nothing is rendered; the matcher lives
in the react-router-dom library, outside this repository's sources. -/
def matchRoutes (routes : List RouteDef) (location : String) : Option View :=
  (routes.find? (fun r => r.path == location)).map RouteDef.element

theorem lookup_setHeader_self (hs : List (String × String)) (k v : String) :
    (setHeader hs k v).lookup k = some v := by
  induction hs with
  | nil => simp [setHeader]
  | cons p rest ih =>
    obtain ⟨k', v'⟩ := p
    by_cases h : k' = k
    · subst h; simp [setHeader]
    · have hb : (k == k') = false := by simp [Ne.symm h]
      simp [setHeader, h, List.lookup, hb, ih]

theorem lookup_setHeader_ne (hs : List (String × String)) (k v k2 : String)
    (h : k2 ≠ k) :
    (setHeader hs k v).lookup k2 = hs.lookup k2 := by
  have hb : (k2 == k) = false := by simp [h]
  induction hs with
  | nil => simp [setHeader, List.lookup, hb]
  | cons p rest ih =>
    obtain ⟨k', v'⟩ := p
    by_cases hk : k' = k
    · subst hk; simp [setHeader, List.lookup, hb]
    · simp [setHeader, hk, List.lookup, ih]

theorem lookup_requestInterceptor_ne (s : Storage) (cfg : RequestConfig) (k : String)
    (hk : k ≠ "Authorization") :
    (requestInterceptor s cfg).headers.lookup k = cfg.headers.lookup k := by
  unfold requestInterceptor
  rcases getItem s "token" with _ | t
  · rfl
  · dsimp only
    split
    · exact lookup_setHeader_ne cfg.headers "Authorization" _ k hk
    · rfl

/-- C1 counterexample: with the empty string stored under 'token', a token
string is present in local storage, yet the interceptor sets no
Authorization header (the claim as stated demands `Bearer ` followed by the
empty token). -/
theorem requestInterceptor_empty_token_counterexample :
    getItem [("token", "")] "token" = some "" ∧
    (requestInterceptor [("token", "")]
        (initialRequestConfig api)).headers.lookup "Authorization" ≠
      some ("Bearer " ++ "") := by
  constructor
  · rfl
  · intro h
    simp [requestInterceptor, getItem, initialRequestConfig, api, List.lookup] at h

/-- C1 (amended): if a non-empty token string is stored under 'token', the
request interceptor sets the Authorization header to `Bearer <token>`; if
no token is stored, or the stored token is the empty string, the request
keeps no Authorization header (given it started with none). -/
theorem requestInterceptor_authorization_header (s : Storage) (cfg : RequestConfig)
    (hno : cfg.headers.lookup "Authorization" = none) :
    (∀ t : String, getItem s "token" = some t → t ≠ "" →
      (requestInterceptor s cfg).headers.lookup "Authorization" =
        some ("Bearer " ++ t)) ∧
    ((getItem s "token" = none ∨ getItem s "token" = some "") →
      (requestInterceptor s cfg).headers.lookup "Authorization" = none) := by
  constructor
  · intro t hpres hne
    simp [requestInterceptor, hpres, hne, lookup_setHeader_self]
  · rintro (h | h) <;> simp [requestInterceptor, h, hno]

/-- C1 witness: a concrete non-empty stored token yields the bearer header. -/
theorem requestInterceptor_authorization_header_witness :
    (requestInterceptor [("token", "abc")] { headers := [] }).headers.lookup
        "Authorization" = some ("Bearer " ++ "abc") :=
  (requestInterceptor_authorization_header [("token", "abc")] { headers := [] }
      rfl).1 "abc" rfl (by decide)

/-- C9: an empty stored token fails the JS truthiness check, so the request
goes out exactly as configured, in particular with no Authorization header
when none was configured. -/
theorem requestInterceptor_empty_token_treated_as_absent (s : Storage)
    (cfg : RequestConfig) (h : getItem s "token" = some "") :
    requestInterceptor s cfg = cfg ∧
    (cfg.headers.lookup "Authorization" = none →
      (requestInterceptor s cfg).headers.lookup "Authorization" = none) := by
  have h1 : requestInterceptor s cfg = cfg := by simp [requestInterceptor, h]
  exact ⟨h1, fun hno => by rw [h1]; exact hno⟩

/-- C9 witness: with the empty string stored, the default-configured request
is unchanged and carries no Authorization header. -/
theorem requestInterceptor_empty_token_treated_as_absent_witness :
    requestInterceptor [("token", "")] (initialRequestConfig api) =
      initialRequestConfig api ∧
    (requestInterceptor [("token", "")]
        (initialRequestConfig api)).headers.lookup "Authorization" = none :=
  ⟨(requestInterceptor_empty_token_treated_as_absent [("token", "")]
      (initialRequestConfig api) rfl).1,
   (requestInterceptor_empty_token_treated_as_absent [("token", "")]
      (initialRequestConfig api) rfl).2 rfl⟩

/-- C2: on an error whose response status is 401, the interceptor performs
exactly one storage operation — removing 'token' — and re-rejects the very
same error object. -/
theorem responseErrorInterceptor_401 (γ : Type) (s : Storage) (e : AxiosError)
    (h : e.response.map ErrorResponse.status = some 401) :
    responseErrorInterceptor γ s e =
      ((removeItem s "token", [StorageOp.removeItemOp "token"]), Except.error e) := by
  simp [responseErrorInterceptor, h]

/-- C2 witness: a concrete 401 error removes the stored token once and is
re-rejected unchanged. -/
theorem responseErrorInterceptor_401_witness :
    responseErrorInterceptor Unit [("token", "tok")]
        { message := "Unauthorized", response := some { status := 401 } } =
      (([], [StorageOp.removeItemOp "token"]),
        Except.error { message := "Unauthorized", response := some { status := 401 } }) := by
  rw [responseErrorInterceptor_401 Unit [("token", "tok")]
      { message := "Unauthorized", response := some { status := 401 } } rfl]
  rfl

/-- C5: on an error carrying a response with any status other than 401, the
interceptor performs no storage operation, leaves storage as it was, and
re-rejects the same error. -/
theorem responseErrorInterceptor_non401 (γ : Type) (s : Storage) (e : AxiosError)
    (r : ErrorResponse) (hr : e.response = some r) (hne : r.status ≠ 401) :
    responseErrorInterceptor γ s e = ((s, []), Except.error e) := by
  simp [responseErrorInterceptor, hr, hne]

/-- C5 witness: a concrete 500 error leaves the stored token in place and is
re-rejected unchanged. -/
theorem responseErrorInterceptor_non401_witness :
    responseErrorInterceptor Unit [("token", "tok")]
        { message := "Server error", response := some { status := 500 } } =
      (([("token", "tok")], []),
        Except.error { message := "Server error", response := some { status := 500 } }) :=
  responseErrorInterceptor_non401 Unit [("token", "tok")]
    { message := "Server error", response := some { status := 500 } }
    { status := 500 } rfl (by decide)

/-- C10: on an error with no response object at all (network or timeout
failure), the optional-chaining status check yields none, storage is left
untouched with no operations, and the same error is re-rejected — the
handler is total, it cannot crash. -/
theorem responseErrorInterceptor_no_response (γ : Type) (s : Storage)
    (e : AxiosError) (h : e.response = none) :
    e.response.map ErrorResponse.status = none ∧
    responseErrorInterceptor γ s e = ((s, []), Except.error e) := by
  constructor
  · rw [h]; rfl
  · simp [responseErrorInterceptor, h]

/-- C10 witness: a concrete response-less network error leaves storage
untouched and is re-rejected unchanged. -/
theorem responseErrorInterceptor_no_response_witness :
    responseErrorInterceptor Unit [("token", "tok")]
        { message := "Network Error", response := none } =
      (([("token", "tok")], []),
        Except.error { message := "Network Error", response := none }) :=
  (responseErrorInterceptor_no_response Unit [("token", "tok")]
    { message := "Network Error", response := none } rfl).2

/-- C3: every public operation — get, post, put, delete, searchAddress,
findNearbyStations, calculateCenterPoint, reverseGeocode — returns the
parsed response body on success, and on failure logs exactly one message
and rejects with the original error object unmodified. -/
theorem apiClient_operations_contract (π β γ Num : Type) :
    (∀ (url : String) (p : Option π) (r : AxiosResponse γ),
      (@apiClient.get π γ url p (Except.ok r)).result = Except.ok r.data ∧
      (@apiClient.get π γ url p (Except.ok r)).logs = []) ∧
    (∀ (url : String) (p : Option π) (e : AxiosError),
      (@apiClient.get π γ url p (Except.error e)).result = Except.error e ∧
      (@apiClient.get π γ url p (Except.error e)).logs.length = 1) ∧
    (∀ (url : String) (d : Option β) (r : AxiosResponse γ),
      (@apiClient.post β γ url d (Except.ok r)).result = Except.ok r.data ∧
      (@apiClient.post β γ url d (Except.ok r)).logs = []) ∧
    (∀ (url : String) (d : Option β) (e : AxiosError),
      (@apiClient.post β γ url d (Except.error e)).result = Except.error e ∧
      (@apiClient.post β γ url d (Except.error e)).logs.length = 1) ∧
    (∀ (url : String) (d : Option β) (r : AxiosResponse γ),
      (@apiClient.put β γ url d (Except.ok r)).result = Except.ok r.data ∧
      (@apiClient.put β γ url d (Except.ok r)).logs = []) ∧
    (∀ (url : String) (d : Option β) (e : AxiosError),
      (@apiClient.put β γ url d (Except.error e)).result = Except.error e ∧
      (@apiClient.put β γ url d (Except.error e)).logs.length = 1) ∧
    (∀ (url : String) (r : AxiosResponse γ),
      (@apiClient.delete γ url (Except.ok r)).result = Except.ok r.data ∧
      (@apiClient.delete γ url (Except.ok r)).logs = []) ∧
    (∀ (url : String) (e : AxiosError),
      (@apiClient.delete γ url (Except.error e)).result = Except.error e ∧
      (@apiClient.delete γ url (Except.error e)).logs.length = 1) ∧
    (∀ (q : String) (r : AxiosResponse γ),
      (@apiClient.searchAddress γ q (Except.ok r)).result = Except.ok r.data ∧
      (@apiClient.searchAddress γ q (Except.ok r)).logs = []) ∧
    (∀ (q : String) (e : AxiosError),
      (@apiClient.searchAddress γ q (Except.error e)).result = Except.error e ∧
      (@apiClient.searchAddress γ q (Except.error e)).logs.length = 1) ∧
    (∀ (lat lng : Num) (r : AxiosResponse γ),
      (@apiClient.findNearbyStations Num γ lat lng (Except.ok r)).result =
        Except.ok r.data ∧
      (@apiClient.findNearbyStations Num γ lat lng (Except.ok r)).logs = []) ∧
    (∀ (lat lng : Num) (e : AxiosError),
      (@apiClient.findNearbyStations Num γ lat lng (Except.error e)).result =
        Except.error e ∧
      (@apiClient.findNearbyStations Num γ lat lng (Except.error e)).logs.length = 1) ∧
    (∀ (locs : List (LatLng Num)) (r : AxiosResponse (CenterPointResult Num)),
      (@apiClient.calculateCenterPoint Num locs (Except.ok r)).result =
        Except.ok r.data ∧
      (@apiClient.calculateCenterPoint Num locs (Except.ok r)).logs = []) ∧
    (∀ (locs : List (LatLng Num)) (e : AxiosError),
      (@apiClient.calculateCenterPoint Num locs (Except.error e)).result =
        Except.error e ∧
      (@apiClient.calculateCenterPoint Num locs (Except.error e)).logs.length = 1) ∧
    (∀ (lat lng : Num) (r : AxiosResponse γ),
      (@apiClient.reverseGeocode Num γ lat lng (Except.ok r)).result =
        Except.ok r.data ∧
      (@apiClient.reverseGeocode Num γ lat lng (Except.ok r)).logs = []) ∧
    (∀ (lat lng : Num) (e : AxiosError),
      (@apiClient.reverseGeocode Num γ lat lng (Except.error e)).result =
        Except.error e ∧
      (@apiClient.reverseGeocode Num γ lat lng (Except.error e)).logs.length = 1) :=
  ⟨fun _ _ _ => ⟨rfl, rfl⟩, fun _ _ _ => ⟨rfl, rfl⟩,
   fun _ _ _ => ⟨rfl, rfl⟩, fun _ _ _ => ⟨rfl, rfl⟩,
   fun _ _ _ => ⟨rfl, rfl⟩, fun _ _ _ => ⟨rfl, rfl⟩,
   fun _ _ => ⟨rfl, rfl⟩, fun _ _ => ⟨rfl, rfl⟩,
   fun _ _ => ⟨rfl, rfl⟩, fun _ _ => ⟨rfl, rfl⟩,
   fun _ _ _ => ⟨rfl, rfl⟩, fun _ _ _ => ⟨rfl, rfl⟩,
   fun _ _ => ⟨rfl, rfl⟩, fun _ _ => ⟨rfl, rfl⟩,
   fun _ _ _ => ⟨rfl, rfl⟩, fun _ _ _ => ⟨rfl, rfl⟩⟩

/-- C4: calculateCenterPoint issues a single POST to
'/naver-maps/center-point' (effective URL '/api/naver-maps/center-point')
whose body is exactly the given locations list, and returns the
server-provided `{lat, lng, count}` object verbatim — instantiated at the
spec's example list `[{lat:1,lng:2},{lat:3,lng:4}]`. -/
theorem calculateCenterPoint_contract :
    (∀ (Num : Type) (locations : List (LatLng Num))
        (net : Except AxiosError (AxiosResponse (CenterPointResult Num))),
      (apiClient.calculateCenterPoint locations net).call =
        { method := Method.POST, url := "/naver-maps/center-point"
          params := none, body := some locations }) ∧
    buildUrl api "/naver-maps/center-point" [] = "/api/naver-maps/center-point" ∧
    (∀ (Num : Type) (locations : List (LatLng Num))
        (r : AxiosResponse (CenterPointResult Num)),
      (apiClient.calculateCenterPoint locations (Except.ok r)).result =
        Except.ok r.data) ∧
    (apiClient.calculateCenterPoint [⟨(1 : Int), 2⟩, ⟨3, 4⟩]
        (Except.ok { status := 200, data := { lat := 2, lng := 3, count := 2 } })).call.body =
      some [⟨1, 2⟩, ⟨3, 4⟩] ∧
    (apiClient.calculateCenterPoint [⟨(1 : Int), 2⟩, ⟨3, 4⟩]
        (Except.ok { status := 200, data := { lat := 2, lng := 3, count := 2 } })).result =
      Except.ok { lat := 2, lng := 3, count := 2 } := by
  refine ⟨fun Num locations net => ?_, rfl, fun Num locations r => rfl, rfl, rfl⟩
  cases net <;> rfl

/-- C6: searchAddress issues a single GET to '/naver-maps/search' with the
query parameter 'query' bound to the given string; for "seoul station" the
effective URL is '/api/naver-maps/search?query=seoul%20station'. -/
theorem searchAddress_contract :
    (∀ (γ : Type) (q : String) (net : Except AxiosError (AxiosResponse γ)),
      (@apiClient.searchAddress γ q net).call =
        { method := Method.GET, url := "/naver-maps/search"
          params := some [("query", q)], body := none }) ∧
    buildUrl api "/naver-maps/search" [("query", "seoul station")] =
      "/api/naver-maps/search?query=seoul%20station" := by
  refine ⟨fun γ q net => ?_, ?_⟩
  · cases net <;> rfl
  · rfl

/-- C7: the client is constructed with fixed configuration — base path
"/api" (every effective URL is "/api" ++ relative url ++ query string),
timeout 10,000 ms, and a default Content-Type application/json header
that survives the request interceptor for every storage state. -/
theorem api_fixed_configuration :
    api.baseURL = "/api" ∧ api.timeout = 10000 ∧
    api.headers.lookup "Content-Type" = some "application/json" ∧
    (∀ (url : String) (params : List (String × String)),
      buildUrl api url params = "/api" ++ url ++ serializeParams params) ∧
    (∀ s : Storage,
      (requestInterceptor s (initialRequestConfig api)).headers.lookup
        "Content-Type" = some "application/json") := by
  refine ⟨rfl, rfl, rfl, fun url params => rfl, fun s => ?_⟩
  rw [lookup_requestInterceptor_ne s (initialRequestConfig api) "Content-Type"
    (by decide)]
  rfl

/-- C8: the router's view tree holds exactly one route — path "/" renders
the home page — and any other path matches no route, rendering nothing. -/
theorem Router_single_route :
    Router.length = 1 ∧
    matchRoutes Router "/" = some View.home ∧
    (∀ p : String, p ≠ "/" → matchRoutes Router p = none) := by
  refine ⟨rfl, rfl, fun p hp => ?_⟩
  have hb : (("/" : String) == p) = false := by simp [Ne.symm hp]
  simp [matchRoutes, Router, List.find?, hb]

/-- C8 witness: a concrete undefined path renders nothing. -/
theorem Router_single_route_witness : matchRoutes Router "/missing" = none :=
  Router_single_route.2.2 "/missing" (by decide)
